import Mathlib

/-!
Shallow embedding of src/script.js, a browser client for a remote file-storage
REST API.  The script wires four HTTP operations (search, upload, rename,
delete) to DOM event handlers.

Modelling choices:
* Network I/O: every fetch is an oracle.  Each api function receives the
  HTTP response it would get (an ok flag plus the decoded body) as an
  explicit argument and returns the request it issued together with the
  JavaScript-level result: Except String models a thrown Error carrying the
  fixed message, Except.ok models normal return.
* DOM effects: each handler returns the list of observable effects it
  performs, in order, as an Event trace: network calls, showError notices,
  toggleLoading updates, clearing the results grid, appending a rendered
  card, clearing the file input.  A handler that catches all errors is a
  total function into traces, which is how the model expresses that no
  exception escapes the controller boundary.
* config.js is not part of src/, so CONFIG is a parameter (a Config record
  with the BASE_URL and ACCESS_TOKEN fields the script reads).
* JavaScript string trim is modelled by jsTrim below (drop leading and
  trailing whitespace characters).
* handleSearch runs synchronously up to the awaited fetch and resumes
  afterwards.  The delete and rename button handlers invoke handleSearch
  without awaiting it, so its synchronous part runs before their finally
  block and its continuation after; the model splits handleSearch into
  handleSearchSync and handleSearchCont to reproduce that order.
-/

namespace GDrive

/-- The single-quote character, written via its code point so it can be
spliced into string templates. -/
def squote : Char := Char.ofNat 39

/-- Model of the JavaScript string trim method: remove leading and trailing
whitespace. -/
def jsTrim (s : String) : String :=
  String.mk (((s.data.dropWhile Char.isWhitespace).reverse.dropWhile
    Char.isWhitespace).reverse)

/-- The CONFIG object imported from config.js (not in src/): a base endpoint
URL and a static bearer token. -/
structure Config where
  BASE_URL : String
  ACCESS_TOKEN : String
  deriving DecidableEq, Repr

/-- A File Record as decoded from the remote API: the three fields requested
by the search query (id, name, mimeType). -/
structure FileRec where
  id : String
  name : String
  mimeType : String
  deriving DecidableEq, Repr

/-- A file picked in the file input: its local filename and content type
(the body bytes play no role in any claim). -/
structure JsFile where
  name : String
  type : String
  deriving DecidableEq, Repr

/-- Decoded JSON body of a successful search response: the script reads the
files field of response.json(). -/
structure SearchBody where
  files : List FileRec
  deriving DecidableEq, Repr

/-- Decoded JSON body of a successful upload response: the script reads the
id of the newly created record (the provisional name is also returned). -/
structure UploadBody where
  id : String
  name : String
  deriving DecidableEq, Repr

/-- Oracle for one fetch: the ok flag of the HTTP response and the decoded
body that response.json() would yield. -/
structure HttpResp (β : Type) where
  ok : Bool
  body : β
  deriving Repr

/-- The Authorization header value attached to every request. -/
def bearer (token : String) : String := "Bearer " ++ token

/-- True for the characters encodeURIComponent leaves unescaped
(letters, digits, and - _ . ! ~ * quote parentheses). -/
def isUnreservedURI (c : Char) : Bool :=
  c.isAlphanum || c = '-' || c = '_' || c = '.' || c = '!' || c = '~' ||
    c = '*' || c = squote || c = '(' || c = ')'

/-- Upper-case hexadecimal digit for a value below 16. -/
def hexDigit (n : Nat) : Char :=
  if n < 10 then Char.ofNat (48 + n) else Char.ofNat (55 + n)

/-- Percent-encoding of one byte value. -/
def percentByte (b : Nat) : String :=
  String.mk ['%', hexDigit (b / 16), hexDigit (b % 16)]

/-- UTF-8 bytes of a character, as Nat values. -/
def utf8Bytes (c : Char) : List Nat :=
  let n := c.toNat
  if n < 128 then [n]
  else if n < 2048 then [192 + n / 64, 128 + n % 64]
  else if n < 65536 then [224 + n / 4096, 128 + (n / 64) % 64, 128 + n % 64]
  else [240 + n / 262144, 128 + (n / 4096) % 64, 128 + (n / 64) % 64,
    128 + n % 64]

/-- Model of the JavaScript encodeURIComponent function: unreserved
characters pass through, every other character is percent-encoded byte by
byte. -/
def encodeURIComponent (s : String) : String :=
  String.join (s.data.map (fun c =>
    if isUnreservedURI c then String.mk [c]
    else String.join ((utf8Bytes c).map percentByte)))

/-- The raw filter expression built by apiSearchFiles before URI-encoding:
the search term is spliced verbatim between two single quotes. -/
def searchFilter (searchTerm : String) : String :=
  "name contains \x27" ++ searchTerm ++ "\x27 and trashed = false"

/-- The URL requested by apiSearchFiles. -/
def searchUrl (cfg : Config) (searchTerm : String) : String :=
  cfg.BASE_URL ++ "?q=" ++ encodeURIComponent (searchFilter searchTerm) ++
    "&fields=files(id,name,mimeType)"

/-- The hard-coded media-upload URL used by apiUploadFile. -/
def uploadUrl : String :=
  "https://www.googleapis.com/upload/drive/v3/files?uploadType=media"

/-- The per-file URL used by apiUpdateFile and apiDeleteFile. -/
def fileUrl (cfg : Config) (fileId : String) : String :=
  cfg.BASE_URL ++ "/" ++ fileId

/-- One issued HTTP request.  Each constructor records the full URL and the
Authorization header, plus the semantic arguments that were interpolated
into the request (content type and body for the upload POST, the target id
and the JSON name field for the PATCH, the target id for the DELETE). -/
inductive ApiCall where
  | searchCall (url : String) (auth : String)
  | uploadCall (url : String) (auth : String) (contentType : String)
      (body : JsFile)
  | updateCall (url : String) (auth : String) (fileId : String)
      (newName : String)
  | deleteCall (url : String) (auth : String) (fileId : String)
  deriving DecidableEq, Repr

/-- apiSearchFiles: builds the query URL, fetches it with the bearer header,
throws Error with the fixed message on a non-ok response, otherwise returns
the decoded body. -/
def apiSearchFiles (cfg : Config) (searchTerm : String)
    (resp : HttpResp SearchBody) : ApiCall × Except String SearchBody :=
  (ApiCall.searchCall (searchUrl cfg searchTerm) (bearer cfg.ACCESS_TOKEN),
   if resp.ok then Except.ok resp.body
   else Except.error "Failed to fetch files.")

/-- apiUploadFile: POSTs the raw file to the media-upload endpoint with the
file content type, throws on a non-ok response, otherwise returns the
decoded body. -/
def apiUploadFile (cfg : Config) (file : JsFile)
    (resp : HttpResp UploadBody) : ApiCall × Except String UploadBody :=
  (ApiCall.uploadCall uploadUrl (bearer cfg.ACCESS_TOKEN) file.type file,
   if resp.ok then Except.ok resp.body
   else Except.error "Upload failed.")

/-- apiUpdateFile: PATCHes the per-file URL with the JSON body carrying the
new name, throws on a non-ok response, otherwise returns nothing. -/
def apiUpdateFile (cfg : Config) (fileId : String) (newName : String)
    (resp : HttpResp Unit) : ApiCall × Except String Unit :=
  (ApiCall.updateCall (fileUrl cfg fileId) (bearer cfg.ACCESS_TOKEN) fileId
      newName,
   if resp.ok then Except.ok () else Except.error "Update failed.")

/-- apiDeleteFile: DELETEs the per-file URL, throws on a non-ok response,
otherwise returns nothing. -/
def apiDeleteFile (cfg : Config) (fileId : String)
    (resp : HttpResp Unit) : ApiCall × Except String Unit :=
  (ApiCall.deleteCall (fileUrl cfg fileId) (bearer cfg.ACCESS_TOKEN) fileId,
   if resp.ok then Except.ok () else Except.error "Delete failed.")

/-- The five literal chunks of the card template, in order, exactly as they
appear between the interpolation holes of the innerHTML template literal in
displayFiles. -/
def cardSeg0 : String := "\n            <h3>📄 "

/-- Chunk between the name hole and the id hole of the paragraph line. -/
def cardSeg1 : String := "</h3>\n            <p>ID: "

/-- Chunk between the paragraph id and the data-id of the rename button. -/
def cardSeg2 : String :=
  "</p>\n            <div class=\x22card-actions\x22>\n                <button class=\x22edit-btn\x22 data-id=\x22"

/-- Chunk between the rename data-id and its data-name. -/
def cardSeg3 : String := "\x22 data-name=\x22"

/-- Chunk between the rename data-name and the delete data-id. -/
def cardSeg4 : String :=
  "\x22>Rename</button>\n                <button class=\x22delete-btn\x22 data-id=\x22"

/-- Trailing chunk after the delete data-id. -/
def cardSeg5 : String := "\x22>Delete</button>\n            </div>\n        "

/-- The innerHTML assigned to one card: the name and id of the record are
interpolated verbatim into the template literal. -/
def cardHTML (f : FileRec) : String :=
  cardSeg0 ++ f.name ++ cardSeg1 ++ f.id ++ cardSeg2 ++ f.id ++ cardSeg3 ++
    f.name ++ cardSeg4 ++ f.id ++ cardSeg5

/-- A rendered card as the DOM ends up holding it: the raw HTML, and the
dataset values of the two buttons that setupCardListeners later reads
(data-id and data-name of the rename button, data-id of the delete
button). -/
structure CardView where
  html : String
  editId : String
  editName : String
  deleteId : String
  deriving DecidableEq, Repr

/-- The card created for one record. -/
def mkCard (f : FileRec) : CardView :=
  { html := cardHTML f, editId := f.id, editName := f.name,
    deleteId := f.id }

/-- One observable effect of a handler, in execution order. -/
inductive Event where
  | netCall (c : ApiCall)
  | notice (msg : String)
  | setLoading (b : Bool)
  | clearGrid
  | renderCard (card : CardView)
  | clearFileInput
  deriving DecidableEq, Repr

/-- displayFiles: clears the results grid, shows the no-results notice when
the list is empty, otherwise appends one card per record in order (then
setupCardListeners binds the button datasets recorded in each card). -/
def displayFiles (files : List FileRec) : List Event :=
  Event.clearGrid ::
    (if files.length = 0 then [Event.notice "No results found."]
     else files.map (fun f => Event.renderCard (mkCard f)))

/-- Synchronous prefix of handleSearch: trim the input, abort with a notice
when empty, otherwise set loading and issue the fetch. -/
def handleSearchSync (cfg : Config) (searchValue : String)
    (resp : HttpResp SearchBody) : List Event :=
  let term := jsTrim searchValue
  if term = "" then [Event.notice "Please enter a search term."]
  else
    [Event.setLoading true,
     Event.netCall (apiSearchFiles cfg term resp).1]

/-- Continuation of handleSearch after the awaited fetch resolves: render
the files or show the thrown message, then clear loading in the finally
block. -/
def handleSearchCont (cfg : Config) (searchValue : String)
    (resp : HttpResp SearchBody) : List Event :=
  let term := jsTrim searchValue
  if term = "" then []
  else
    (match (apiSearchFiles cfg term resp).2 with
     | Except.ok data => displayFiles data.files
     | Except.error msg => [Event.notice msg]) ++
      [Event.setLoading false]

/-- handleSearch: the whole trace of one search click. -/
def handleSearch (cfg : Config) (searchValue : String)
    (resp : HttpResp SearchBody) : List Event :=
  handleSearchSync cfg searchValue resp ++
    handleSearchCont cfg searchValue resp

/-- handleUpload: abort with a notice when no file is selected; otherwise
set loading, upload, then patch the name of the new record to the local
filename, show the success notice and clear the file input, catching any
thrown message, and clear loading in the finally block. -/
def handleUpload (cfg : Config) (selectedFile : Option JsFile)
    (uploadResp : HttpResp UploadBody) (updateResp : HttpResp Unit) :
    List Event :=
  match selectedFile with
  | none => [Event.notice "Select a file first."]
  | some file =>
    Event.setLoading true ::
      (let up := apiUploadFile cfg file uploadResp
       Event.netCall up.1 ::
         match up.2 with
         | Except.error msg => [Event.notice msg, Event.setLoading false]
         | Except.ok uploadedFile =>
           let upd := apiUpdateFile cfg uploadedFile.id file.name updateResp
           Event.netCall upd.1 ::
             match upd.2 with
             | Except.error msg =>
               [Event.notice msg, Event.setLoading false]
             | Except.ok _ =>
               [Event.notice "File uploaded successfully!",
                Event.clearFileInput, Event.setLoading false])

/-- The onclick closure that setupCardListeners installs on a rename
button: prompt for a name (promptResult is none when dismissed); when the
reply is truthy and trims non-empty, set loading, patch, and on success
fire handleSearch without awaiting it, so the finally block clears loading
between the synchronous part of the refresh and its continuation. -/
def handleRename (cfg : Config) (dataId : String) (dataName : String)
    (promptResult : Option String) (updateResp : HttpResp Unit)
    (searchValue : String) (searchResp : HttpResp SearchBody) :
    List Event :=
  match promptResult with
  | none => []
  | some newName =>
    if newName ≠ "" ∧ jsTrim newName ≠ "" then
      Event.setLoading true ::
        (let upd := apiUpdateFile cfg dataId (jsTrim newName) updateResp
         Event.netCall upd.1 ::
           match upd.2 with
           | Except.ok _ =>
             handleSearchSync cfg searchValue searchResp ++
               [Event.setLoading false] ++
               handleSearchCont cfg searchValue searchResp
           | Except.error msg =>
             [Event.notice msg, Event.setLoading false])
    else []

/-- The onclick closure that setupCardListeners installs on a delete
button: ask for confirmation; when confirmed, set loading, delete, and on
success fire handleSearch without awaiting it (same interleaving as in
handleRename). -/
def handleDelete (cfg : Config) (dataId : String) (confirmResult : Bool)
    (deleteResp : HttpResp Unit) (searchValue : String)
    (searchResp : HttpResp SearchBody) : List Event :=
  if confirmResult then
    Event.setLoading true ::
      (let del := apiDeleteFile cfg dataId deleteResp
       Event.netCall del.1 ::
         match del.2 with
         | Except.ok _ =>
           handleSearchSync cfg searchValue searchResp ++
             [Event.setLoading false] ++
             handleSearchCont cfg searchValue searchResp
         | Except.error msg =>
           [Event.notice msg, Event.setLoading false])
  else []

/-- The showError messages of a trace, in order. -/
def noticesOf : List Event → List String
  | [] => []
  | Event.notice m :: rest => m :: noticesOf rest
  | _ :: rest => noticesOf rest

/-- The network calls of a trace, in order. -/
def callsOf : List Event → List ApiCall
  | [] => []
  | Event.netCall c :: rest => c :: callsOf rest
  | _ :: rest => callsOf rest

/-- The cards rendered by a trace, in order. -/
def cardsOf : List Event → List CardView
  | [] => []
  | Event.renderCard c :: rest => c :: cardsOf rest
  | _ :: rest => cardsOf rest

/-- The loading flag after a trace runs, starting from b0. -/
def loadingAfter (b0 : Bool) : List Event → Bool
  | [] => b0
  | Event.setLoading v :: rest => loadingAfter v rest
  | _ :: rest => loadingAfter b0 rest

/-- Modelled from the spec: the name the remote service stores for record
fid after the issued calls run, starting from its prior name.  Only the
metadata PATCH sets a name (the remote API itself is external to src/). -/
def nameAfterCalls (calls : List ApiCall) (fid : String) (prior : String) :
    String :=
  match calls with
  | [] => prior
  | ApiCall.updateCall _ _ i newName :: rest =>
    nameAfterCalls rest fid (if i = fid then newName else prior)
  | _ :: rest => nameAfterCalls rest fid prior

/-- Number of occurrences of a character in a string. -/
def countChar (c : Char) (s : String) : Nat :=
  (s.data.filter (fun x => x = c)).length

/-- The string sub occurs contiguously inside hay. -/
def strHas (hay sub : String) : Prop := ∃ a b, hay = a ++ sub ++ b

/-- Characters after the first single quote of the list, when one exists. -/
def afterFirstQuote : List Char → Option (List Char)
  | [] => none
  | c :: rest =>
    if c = squote then some rest else afterFirstQuote rest

/-- Characters before the next single quote, when one exists. -/
def upToQuote : List Char → Option (List Char)
  | [] => none
  | c :: rest =>
    if c = squote then some []
    else Option.map (fun l => c :: l) (upToQuote rest)

/-- The first single-quoted literal of a string: what a reader of the
filter expression takes as the quoted operand. -/
def firstQuoted (s : String) : Option String :=
  Option.bind (afterFirstQuote s.data)
    (fun rest => Option.map String.mk (upToQuote rest))

/-- A sample configuration (config.js is external; the concrete values are
immaterial, witnesses only instantiate with them). -/
def cfg0 : Config :=
  { BASE_URL := "https://www.googleapis.com/drive/v3/files",
    ACCESS_TOKEN := "token0" }

/-! ### Helper lemmas -/

theorem str_append_assoc (a b c : String) : a ++ b ++ c = a ++ (b ++ c) := by
  apply String.ext
  simp [String.data_append]

theorem str_append_empty (a : String) : a ++ "" = a := by
  apply String.ext
  simp [String.data_append]

theorem countChar_append (c : Char) (a b : String) :
    countChar c (a ++ b) = countChar c a + countChar c b := by
  simp [countChar, String.data_append, List.filter_append]

theorem noticesOf_renderCards (l : List FileRec) :
    noticesOf (l.map (fun f => Event.renderCard (mkCard f))) = [] := by
  induction l with
  | nil => rfl
  | cons f rest ih => simp [noticesOf, ih]

theorem cardsOf_renderCards (l : List FileRec) :
    cardsOf (l.map (fun f => Event.renderCard (mkCard f))) = l.map mkCard := by
  induction l with
  | nil => rfl
  | cons f rest ih => simp [cardsOf, ih]

theorem loadingAfter_concat_false (l : List Event) (b0 : Bool) :
    loadingAfter b0 (l ++ [Event.setLoading false]) = false := by
  induction l generalizing b0 with
  | nil => rfl
  | cons e rest ih => cases e <;> simp [loadingAfter, ih]

theorem cardHTML_has_name (f : FileRec) : strHas (cardHTML f) f.name := by
  refine ⟨cardSeg0, cardSeg1 ++ f.id ++ cardSeg2 ++ f.id ++ cardSeg3 ++
    f.name ++ cardSeg4 ++ f.id ++ cardSeg5, ?_⟩
  simp [cardHTML, str_append_assoc]

theorem cardHTML_has_id (f : FileRec) : strHas (cardHTML f) f.id := by
  refine ⟨cardSeg0 ++ f.name ++ cardSeg1, cardSeg2 ++ f.id ++ cardSeg3 ++
    f.name ++ cardSeg4 ++ f.id ++ cardSeg5, ?_⟩
  simp [cardHTML, str_append_assoc]

theorem seg3_split : cardSeg3 = "\x22 " ++ "data-name=\x22" := by decide

theorem seg4_split :
    cardSeg4 = "\x22" ++
      ">Rename</button>\n                <button class=\x22delete-btn\x22 data-id=\x22" := by
  decide

theorem seg4_split_id :
    cardSeg4 =
      "\x22>Rename</button>\n                <button class=\x22delete-btn\x22 " ++
        "data-id=\x22" := by
  decide

theorem seg5_split :
    cardSeg5 = "\x22" ++ ">Delete</button>\n            </div>\n        " := by
  decide

theorem dataName_attr (f : FileRec) :
    strHas (cardHTML f) ("data-name=\x22" ++ f.name ++ "\x22") := by
  refine ⟨cardSeg0 ++ f.name ++ cardSeg1 ++ f.id ++ cardSeg2 ++ f.id ++
      "\x22 ",
    ">Rename</button>\n                <button class=\x22delete-btn\x22 data-id=\x22" ++
      f.id ++ cardSeg5, ?_⟩
  apply String.ext
  have e3 : cardSeg3.data = ("\x22 ").data ++ ("data-name=\x22").data := by
    decide
  have e4 : cardSeg4.data = ("\x22").data ++
      (">Rename</button>\n                <button class=\x22delete-btn\x22 data-id=\x22").data := by
    decide
  simp [cardHTML, String.data_append, e3, e4]

theorem dataId_attr (f : FileRec) :
    strHas (cardHTML f) ("data-id=\x22" ++ f.id ++ "\x22") := by
  refine ⟨cardSeg0 ++ f.name ++ cardSeg1 ++ f.id ++ cardSeg2 ++ f.id ++
      cardSeg3 ++ f.name ++
      "\x22>Rename</button>\n                <button class=\x22delete-btn\x22 ",
    ">Delete</button>\n            </div>\n        ", ?_⟩
  apply String.ext
  have e4 : cardSeg4.data =
      ("\x22>Rename</button>\n                <button class=\x22delete-btn\x22 ").data ++
        ("data-id=\x22").data := by
    decide
  have e5 : cardSeg5.data = ("\x22").data ++
      (">Delete</button>\n            </div>\n        ").data := by
    decide
  simp [cardHTML, String.data_append, e4, e5]

theorem countChar_cardHTML (f : FileRec) :
    countChar '<' (cardHTML f) =
      10 + 2 * countChar '<' f.name + 3 * countChar '<' f.id := by
  have h0 : countChar '<' cardSeg0 = 1 := by decide
  have h1 : countChar '<' cardSeg1 = 2 := by decide
  have h2 : countChar '<' cardSeg2 = 3 := by decide
  have h3 : countChar '<' cardSeg3 = 0 := by decide
  have h4 : countChar '<' cardSeg4 = 2 := by decide
  have h5 : countChar '<' cardSeg5 = 2 := by decide
  simp only [cardHTML, countChar_append, h0, h1, h2, h3, h4, h5]
  omega

/-! ### Claim theorems -/

/-- C2: displayFiles first clears the rendered results; on an empty list it
shows the no-results notice and renders no card; on a non-empty list it
renders exactly one card per record, in list order, with no notice; every
card shows the name and the identifier of its record and carries a rename
control and a delete control whose datasets hold the identifier of that
record. -/
theorem displayFiles_renders (files : List FileRec) :
    (displayFiles files).head? = some Event.clearGrid ∧
    (files = [] →
      displayFiles files =
        [Event.clearGrid, Event.notice "No results found."]) ∧
    (files ≠ [] →
      displayFiles files =
        Event.clearGrid :: files.map (fun f => Event.renderCard (mkCard f)) ∧
      noticesOf (displayFiles files) = [] ∧
      cardsOf (displayFiles files) = files.map mkCard) ∧
    (∀ f : FileRec, (mkCard f).editId = f.id ∧ (mkCard f).deleteId = f.id ∧
      strHas (mkCard f).html f.name ∧ strHas (mkCard f).html f.id) := by
  refine ⟨rfl, ?_, ?_, ?_⟩
  · intro h
    subst h
    rfl
  · intro h
    have hlen : ¬(files.length = 0) := fun hl => h (List.length_eq_zero.mp hl)
    have hd : displayFiles files =
        Event.clearGrid :: files.map (fun f => Event.renderCard (mkCard f)) := by
      simp [displayFiles, hlen]
    refine ⟨hd, ?_, ?_⟩
    · rw [hd]
      simpa [noticesOf] using noticesOf_renderCards files
    · rw [hd]
      simpa [cardsOf] using cardsOf_renderCards files
  · intro f
    exact ⟨rfl, rfl, cardHTML_has_name f, cardHTML_has_id f⟩

/-- Witness for C2 at concrete inputs: the empty list renders only the
notice, a one-record list renders exactly the one card. -/
theorem displayFiles_renders_concrete :
    displayFiles [] = [Event.clearGrid, Event.notice "No results found."] ∧
    displayFiles [⟨"1", "report.pdf", "application/pdf"⟩] =
      [Event.clearGrid,
       Event.renderCard (mkCard ⟨"1", "report.pdf", "application/pdf"⟩)] :=
  ⟨(displayFiles_renders []).2.1 rfl,
   ((displayFiles_renders [⟨"1", "report.pdf", "application/pdf"⟩]).2.2.1
      (by decide)).1⟩

/-- C9: the name and the identifier of a record are spliced verbatim, with
no escaping, into the card markup and into the data attributes of its
buttons: the count of opening-angle-bracket characters of the card HTML is
the 10 of the template plus every angle bracket of the name (twice) and of
the id (three times), the data attributes carry the raw values, and a name
containing markup therefore changes the tag structure of the card instead
of being displayed literally. -/
theorem cardHTML_unescaped_interpolation :
    (∀ f : FileRec,
      countChar '<' (cardHTML f) =
        10 + 2 * countChar '<' f.name + 3 * countChar '<' f.id) ∧
    (∀ f : FileRec,
      strHas (cardHTML f) ("data-name=\x22" ++ f.name ++ "\x22") ∧
      strHas (cardHTML f) ("data-id=\x22" ++ f.id ++ "\x22")) ∧
    (∃ f : FileRec, 0 < countChar '<' f.name ∧
      countChar '<' (cardHTML f) ≠ 10) := by
  refine ⟨countChar_cardHTML, fun f => ⟨dataName_attr f, dataId_attr f⟩,
    ⟨⟨"1", "<i>", "t"⟩, by decide, ?_⟩⟩
  rw [countChar_cardHTML]
  decide

theorem mk_data (s : String) : String.mk s.data = s := rfl

theorem afterFirstQuote_append (l1 l2 : List Char)
    (h : ∀ c ∈ l1, c ≠ squote) :
    afterFirstQuote (l1 ++ squote :: l2) = some l2 := by
  induction l1 with
  | nil => simp [afterFirstQuote]
  | cons c cs ih =>
    have hc : c ≠ squote := h c (List.mem_cons_self c cs)
    have ih2 := ih (fun x hx => h x (List.mem_cons_of_mem c hx))
    simp [afterFirstQuote, hc, ih2]

theorem upToQuote_append (l1 l2 : List Char) (h : ∀ c ∈ l1, c ≠ squote) :
    upToQuote (l1 ++ squote :: l2) = some l1 := by
  induction l1 with
  | nil => simp [upToQuote]
  | cons c cs ih =>
    have hc : c ≠ squote := h c (List.mem_cons_self c cs)
    have ih2 := ih (fun x hx => h x (List.mem_cons_of_mem c hx))
    simp [upToQuote, hc, ih2]

theorem searchFilter_data (t : String) :
    (searchFilter t).data =
      ("name contains ").data ++
        squote :: (t.data ++ squote :: (" and trashed = false").data) := by
  have h1 : ("name contains \x27").data =
      ("name contains ").data ++ [squote] := by decide
  have h2 : ("\x27 and trashed = false").data =
      squote :: (" and trashed = false").data := by decide
  simp [searchFilter, String.data_append, h1, h2]
  decide

/-- C10: the filter expression splices the search term verbatim between two
single quotes before URI-encoding, with no quote escaping: a quote-free
term is read back as the quoted operand, the quote count of the filter is
two plus the quote count of the term, encodeURIComponent passes the single
quote through unescaped, and a term containing a single quote closes the
quoted literal early, so the filter no longer reads the term as its quoted
operand. -/
theorem searchFilter_quote_injection :
    (∀ t : String, countChar squote t = 0 →
      firstQuoted (searchFilter t) = some t) ∧
    (∀ t : String,
      countChar squote (searchFilter t) = 2 + countChar squote t) ∧
    encodeURIComponent (String.mk [squote]) = String.mk [squote] ∧
    (∃ t : String, 0 < countChar squote t ∧
      firstQuoted (searchFilter t) ≠ some t) := by
  refine ⟨?_, ?_, by decide, ⟨"a\x27b", by decide, by decide⟩⟩
  · intro t ht
    have hq : ∀ c ∈ t.data, c ≠ squote := by
      intro c hc
      have hfil := List.filter_eq_nil.mp
        (List.length_eq_zero.mp ht) c hc
      simpa using hfil
    have hpre : ∀ c ∈ ("name contains ").data, c ≠ squote := by decide
    unfold firstQuoted
    rw [searchFilter_data]
    rw [afterFirstQuote_append ("name contains ").data
      (t.data ++ squote :: (" and trashed = false").data) hpre]
    show Option.map String.mk
      (upToQuote (t.data ++ squote :: (" and trashed = false").data)) =
        some t
    rw [upToQuote_append t.data (" and trashed = false").data hq]
    show some (String.mk t.data) = some t
    rw [mk_data]
  · intro t
    have ha : countChar squote ("name contains \x27") = 1 := by decide
    have hb : countChar squote ("\x27 and trashed = false") = 1 := by decide
    simp only [searchFilter, countChar_append, ha, hb]
    omega

/-- Witness for C10 at a concrete quote-free term: the quoted operand of
the built filter is the term itself. -/
theorem searchFilter_quote_injection_concrete :
    firstQuoted (searchFilter "report") = some "report" :=
  searchFilter_quote_injection.1 "report" (by decide)

/-- C4: for a non-empty trimmed term, apiSearchFiles issues the query URL
(carrying the encoded filter and requesting only the id, name and mimeType
fields) with the bearer header; on an ok response it returns the decoded
body (whose files list may be empty), on a non-ok response it throws the
fixed fetch-failure message. -/
theorem apiSearchFiles_contract (cfg : Config) (term : String)
    (resp : HttpResp SearchBody) (hne : term ≠ "")
    (htrim : jsTrim term = term) :
    (apiSearchFiles cfg term resp).1 =
      ApiCall.searchCall (searchUrl cfg term) (bearer cfg.ACCESS_TOKEN) ∧
    strHas (searchUrl cfg term) "&fields=files(id,name,mimeType)" ∧
    (resp.ok = true →
      (apiSearchFiles cfg term resp).2 = Except.ok resp.body) ∧
    (resp.ok = false →
      (apiSearchFiles cfg term resp).2 =
        Except.error "Failed to fetch files.") := by
  refine ⟨rfl, ⟨cfg.BASE_URL ++ "?q=" ++
      encodeURIComponent (searchFilter term), "", ?_⟩,
    fun h => by simp [apiSearchFiles, h],
    fun h => by simp [apiSearchFiles, h]⟩
  rw [str_append_empty]
  rfl

/-- Witness for C4 at a concrete term and both response outcomes. -/
theorem apiSearchFiles_contract_concrete :
    (apiSearchFiles cfg0 "report" ⟨true, ⟨[]⟩⟩).2 = Except.ok ⟨[]⟩ ∧
    (apiSearchFiles cfg0 "report" ⟨false, ⟨[]⟩⟩).2 =
      Except.error "Failed to fetch files." :=
  ⟨(apiSearchFiles_contract cfg0 "report" ⟨true, ⟨[]⟩⟩ (by decide)
      (by decide)).2.2.1 rfl,
   (apiSearchFiles_contract cfg0 "report" ⟨false, ⟨[]⟩⟩ (by decide)
      (by decide)).2.2.2 rfl⟩

/-- C1: whenever an HTTP response is not ok, the api function throws the
fixed message of its operation, and the controller action that invoked it
turns that into exactly one notice carrying the message (handlers being
total functions into traces, nothing escapes the controller boundary).
The five cases: search from handleSearch; upload from handleUpload; the
rename step of handleUpload; rename from the card rename handler; delete
from the card delete handler. -/
theorem operations_fail_with_fixed_notice :
    (∀ (cfg : Config) (sv : String) (resp : HttpResp SearchBody),
      jsTrim sv ≠ "" → resp.ok = false →
      (apiSearchFiles cfg (jsTrim sv) resp).2 =
        Except.error "Failed to fetch files." ∧
      noticesOf (handleSearch cfg sv resp) = ["Failed to fetch files."]) ∧
    (∀ (cfg : Config) (f : JsFile) (uresp : HttpResp UploadBody)
      (presp : HttpResp Unit), uresp.ok = false →
      (apiUploadFile cfg f uresp).2 = Except.error "Upload failed." ∧
      noticesOf (handleUpload cfg (some f) uresp presp) =
        ["Upload failed."]) ∧
    (∀ (cfg : Config) (f : JsFile) (uresp : HttpResp UploadBody)
      (presp : HttpResp Unit), uresp.ok = true → presp.ok = false →
      (apiUpdateFile cfg uresp.body.id f.name presp).2 =
        Except.error "Update failed." ∧
      noticesOf (handleUpload cfg (some f) uresp presp) =
        ["Update failed."]) ∧
    (∀ (cfg : Config) (i n nm sv : String) (uresp : HttpResp Unit)
      (sresp : HttpResp SearchBody), jsTrim nm ≠ "" → uresp.ok = false →
      (apiUpdateFile cfg i (jsTrim nm) uresp).2 =
        Except.error "Update failed." ∧
      noticesOf (handleRename cfg i n (some nm) uresp sv sresp) =
        ["Update failed."]) ∧
    (∀ (cfg : Config) (i sv : String) (dresp : HttpResp Unit)
      (sresp : HttpResp SearchBody), dresp.ok = false →
      (apiDeleteFile cfg i dresp).2 = Except.error "Delete failed." ∧
      noticesOf (handleDelete cfg i true dresp sv sresp) =
        ["Delete failed."]) := by
  refine ⟨?_, ?_, ?_, ?_, ?_⟩
  · intro cfg sv resp hterm hok
    constructor
    · simp [apiSearchFiles, hok]
    · simp [handleSearch, handleSearchSync, handleSearchCont,
        apiSearchFiles, hok, hterm, noticesOf]
  · intro cfg f uresp presp hok
    constructor
    · simp [apiUploadFile, hok]
    · simp [handleUpload, apiUploadFile, hok, noticesOf]
  · intro cfg f uresp presp hu hp
    constructor
    · simp [apiUpdateFile, hp]
    · simp [handleUpload, apiUploadFile, apiUpdateFile, hu, hp, noticesOf]
  · intro cfg i n nm sv uresp sresp hnm hok
    have hne : nm ≠ "" := by
      intro h
      apply hnm
      rw [h]
      decide
    constructor
    · simp [apiUpdateFile, hok]
    · simp [handleRename, apiUpdateFile, hok, hne, hnm, noticesOf]
  · intro cfg i sv dresp sresp hok
    constructor
    · simp [apiDeleteFile, hok]
    · simp [handleDelete, apiDeleteFile, hok, noticesOf]

/-- Witness for C1: each of the five failure cases at concrete inputs. -/
theorem operations_fail_with_fixed_notice_concrete :
    noticesOf (handleSearch cfg0 "report" ⟨false, ⟨[]⟩⟩) =
      ["Failed to fetch files."] ∧
    noticesOf (handleUpload cfg0 (some ⟨"a.txt", "text/plain"⟩)
      ⟨false, ⟨"9", "Untitled"⟩⟩ ⟨true, ()⟩) = ["Upload failed."] ∧
    noticesOf (handleUpload cfg0 (some ⟨"a.txt", "text/plain"⟩)
      ⟨true, ⟨"9", "Untitled"⟩⟩ ⟨false, ()⟩) = ["Update failed."] ∧
    noticesOf (handleRename cfg0 "9" "a.txt" (some "b.txt") ⟨false, ()⟩
      "report" ⟨true, ⟨[]⟩⟩) = ["Update failed."] ∧
    noticesOf (handleDelete cfg0 "9" true ⟨false, ()⟩ "report"
      ⟨true, ⟨[]⟩⟩) = ["Delete failed."] :=
  ⟨(operations_fail_with_fixed_notice.1 cfg0 "report" ⟨false, ⟨[]⟩⟩
      (by decide) rfl).2,
   (operations_fail_with_fixed_notice.2.1 cfg0 ⟨"a.txt", "text/plain"⟩
      ⟨false, ⟨"9", "Untitled"⟩⟩ ⟨true, ()⟩ rfl).2,
   (operations_fail_with_fixed_notice.2.2.1 cfg0 ⟨"a.txt", "text/plain"⟩
      ⟨true, ⟨"9", "Untitled"⟩⟩ ⟨false, ()⟩ rfl rfl).2,
   (operations_fail_with_fixed_notice.2.2.2.1 cfg0 "9" "a.txt" "b.txt"
      "report" ⟨false, ()⟩ ⟨true, ⟨[]⟩⟩ (by decide) rfl).2,
   (operations_fail_with_fixed_notice.2.2.2.2 cfg0 "9" "report" ⟨false, ()⟩
      ⟨true, ⟨[]⟩⟩ rfl).2⟩

/-- C3: an upload with a selected file whose two requests both succeed
performs exactly these effects in order: set busy, the media upload POST,
the rename PATCH setting the name of the new record to the local filename,
the success notice, clearing the file input, clear busy.  In particular
exactly two network calls are issued, upload first, rename second. -/
theorem handleUpload_success_two_calls (cfg : Config) (f : JsFile)
    (uresp : HttpResp UploadBody) (presp : HttpResp Unit)
    (hu : uresp.ok = true) (hp : presp.ok = true) :
    handleUpload cfg (some f) uresp presp =
      [Event.setLoading true,
       Event.netCall (ApiCall.uploadCall uploadUrl (bearer cfg.ACCESS_TOKEN)
         f.type f),
       Event.netCall (ApiCall.updateCall (fileUrl cfg uresp.body.id)
         (bearer cfg.ACCESS_TOKEN) uresp.body.id f.name),
       Event.notice "File uploaded successfully!", Event.clearFileInput,
       Event.setLoading false] ∧
    callsOf (handleUpload cfg (some f) uresp presp) =
      [ApiCall.uploadCall uploadUrl (bearer cfg.ACCESS_TOKEN) f.type f,
       ApiCall.updateCall (fileUrl cfg uresp.body.id)
         (bearer cfg.ACCESS_TOKEN) uresp.body.id f.name] := by
  constructor
  · simp [handleUpload, apiUploadFile, apiUpdateFile, hu, hp]
  · simp [handleUpload, apiUploadFile, apiUpdateFile, hu, hp, callsOf]

/-- Witness for C3 at a concrete file and successful responses. -/
theorem handleUpload_success_two_calls_concrete :
    callsOf (handleUpload cfg0 (some ⟨"a.txt", "text/plain"⟩)
      ⟨true, ⟨"9", "Untitled"⟩⟩ ⟨true, ()⟩) =
      [ApiCall.uploadCall uploadUrl (bearer cfg0.ACCESS_TOKEN) "text/plain"
        ⟨"a.txt", "text/plain"⟩,
       ApiCall.updateCall (fileUrl cfg0 "9") (bearer cfg0.ACCESS_TOKEN) "9"
        "a.txt"] :=
  (handleUpload_success_two_calls cfg0 ⟨"a.txt", "text/plain"⟩
    ⟨true, ⟨"9", "Untitled"⟩⟩ ⟨true, ()⟩ rfl rfl).2

/-- C5: a search whose input trims to the empty string performs exactly one
effect, the enter-a-search-term notice, and issues no network call. -/
theorem handleSearch_blank_term (cfg : Config) (sv : String)
    (resp : HttpResp SearchBody) (h : jsTrim sv = "") :
    handleSearch cfg sv resp =
      [Event.notice "Please enter a search term."] ∧
    callsOf (handleSearch cfg sv resp) = [] := by
  constructor
  · simp [handleSearch, handleSearchSync, handleSearchCont, h]
  · simp [handleSearch, handleSearchSync, handleSearchCont, h, callsOf]

/-- Witness for C5 at a whitespace-only input. -/
theorem handleSearch_blank_term_concrete :
    handleSearch cfg0 "   " ⟨true, ⟨[]⟩⟩ =
      [Event.notice "Please enter a search term."] :=
  (handleSearch_blank_term cfg0 "   " ⟨true, ⟨[]⟩⟩ (by decide)).1

/-- C6: a rename whose prompt is dismissed or whose reply trims to the
empty string performs no effect at all: no network call is issued, and
the name the remote service stores for the record stays its prior name. -/
theorem handleRename_blank_name (cfg : Config) (i n : String)
    (promptResult : Option String) (uresp : HttpResp Unit) (sv : String)
    (sresp : HttpResp SearchBody)
    (h : (Option.map jsTrim promptResult).getD "" = "") :
    handleRename cfg i n promptResult uresp sv sresp = [] ∧
    callsOf (handleRename cfg i n promptResult uresp sv sresp) = [] ∧
    (∀ fid prior : String,
      nameAfterCalls
        (callsOf (handleRename cfg i n promptResult uresp sv sresp))
        fid prior = prior) := by
  have hempty : handleRename cfg i n promptResult uresp sv sresp = [] := by
    cases promptResult with
    | none => rfl
    | some s =>
      have hs : jsTrim s = "" := by simpa using h
      simp [handleRename, hs]
  refine ⟨hempty, ?_, ?_⟩
  · rw [hempty]
    rfl
  · intro fid prior
    rw [hempty]
    rfl

/-- Witness for C6 at a whitespace-only prompt reply. -/
theorem handleRename_blank_name_concrete :
    handleRename cfg0 "9" "a.txt" (some "  ") ⟨true, ()⟩ "q"
      ⟨true, ⟨[]⟩⟩ = [] ∧
    nameAfterCalls (callsOf (handleRename cfg0 "9" "a.txt" (some "  ")
      ⟨true, ()⟩ "q" ⟨true, ⟨[]⟩⟩)) "9" "a.txt" = "a.txt" :=
  ⟨(handleRename_blank_name cfg0 "9" "a.txt" (some "  ") ⟨true, ()⟩ "q"
      ⟨true, ⟨[]⟩⟩ (by decide)).1,
   (handleRename_blank_name cfg0 "9" "a.txt" (some "  ") ⟨true, ()⟩ "q"
      ⟨true, ⟨[]⟩⟩ (by decide)).2.2 "9" "a.txt"⟩

/-- C7: an upload with no selected file performs exactly one effect, the
select-a-file notice, and issues no network call. -/
theorem handleUpload_no_file (cfg : Config) (uresp : HttpResp UploadBody)
    (presp : HttpResp Unit) :
    handleUpload cfg none uresp presp =
      [Event.notice "Select a file first."] ∧
    callsOf (handleUpload cfg none uresp presp) = [] := by
  exact ⟨rfl, rfl⟩

/-- C8: a search with a non-blank term sets busy first and issues the fetch
second, ends with clearing busy, and leaves the busy flag clear from any
starting state, whether the response is ok or not. -/
theorem handleSearch_busy_discipline (cfg : Config) (sv : String)
    (resp : HttpResp SearchBody) (h : jsTrim sv ≠ "") :
    (handleSearch cfg sv resp).take 2 =
      [Event.setLoading true,
       Event.netCall (ApiCall.searchCall (searchUrl cfg (jsTrim sv))
         (bearer cfg.ACCESS_TOKEN))] ∧
    (handleSearch cfg sv resp).getLast? = some (Event.setLoading false) ∧
    (∀ b0 : Bool, loadingAfter b0 (handleSearch cfg sv resp) = false) := by
  obtain ⟨body, hbody⟩ : ∃ body : List Event,
      handleSearch cfg sv resp =
        (Event.setLoading true ::
          Event.netCall (ApiCall.searchCall (searchUrl cfg (jsTrim sv))
            (bearer cfg.ACCESS_TOKEN)) :: body) ++
          [Event.setLoading false] := by
    refine ⟨(match (apiSearchFiles cfg (jsTrim sv) resp).2 with
             | Except.ok data => displayFiles data.files
             | Except.error msg => [Event.notice msg]), ?_⟩
    simp [handleSearch, handleSearchSync, handleSearchCont, h,
      apiSearchFiles]
  refine ⟨?_, ?_, ?_⟩
  · rw [hbody]
    simp
  · rw [hbody]
    exact List.getLast?_concat _
  · intro b0
    rw [hbody]
    exact loadingAfter_concat_false _ b0

/-- Witness for C8 at a concrete term, for a successful and a failing
response. -/
theorem handleSearch_busy_discipline_concrete :
    (handleSearch cfg0 "report" ⟨true, ⟨[]⟩⟩).getLast? =
      some (Event.setLoading false) ∧
    loadingAfter true (handleSearch cfg0 "report" ⟨true, ⟨[]⟩⟩) = false ∧
    loadingAfter true (handleSearch cfg0 "report" ⟨false, ⟨[]⟩⟩) = false :=
  ⟨(handleSearch_busy_discipline cfg0 "report" ⟨true, ⟨[]⟩⟩
      (by decide)).2.1,
   (handleSearch_busy_discipline cfg0 "report" ⟨true, ⟨[]⟩⟩
      (by decide)).2.2 true,
   (handleSearch_busy_discipline cfg0 "report" ⟨false, ⟨[]⟩⟩
      (by decide)).2.2 true⟩

end GDrive
